import Mathlib

/-!
Verification of `src/app.py` (actuary-slackbot): a shallow embedding of the
loss-ratio calculator, the Slack message formatter, and the three webhook
handlers, together with theorems settling the specification claims.

Numeric cell values are modelled as rationals.  The outside world (file
loading, the completion API) is modelled by explicit oracles, and Python
exceptions raised while loading a table are modelled by the `LoadOutcome`
inductive, mirroring the `except` arms of `calculate_loss_ratio`.
-/

namespace ActuarySlackbot

/-- A pandas DataFrame as read by `pd.read_excel`: named columns of numeric
cells, plus the row count reported by `len(df)`. -/
structure DataFrame where
  cols : List (String × List ℚ)
  nrows : ℕ
deriving Repr, DecidableEq

/-- `df.columns` -/
def DataFrame.columns (df : DataFrame) : List String :=
  df.cols.map Prod.fst

/-- `df[name]` for a column that is present (`[]` otherwise; the code only
subscripts after checking membership). -/
def DataFrame.get (df : DataFrame) (name : String) : List ℚ :=
  (df.cols.find? (fun c => c.1 = name)).elim [] Prod.snd

/-- Outcome of the table-loading step inside the `try` block of
`calculate_loss_ratio`: either a parsed DataFrame, or one of the exception
classes caught by the `except` arms (each carrying its rendered message). -/
inductive LoadOutcome where
  | ok (df : DataFrame)
  | fileNotFound
  | keyError (e : String)
  | requestException (e : String)
  | otherError (e : String)
deriving Repr, DecidableEq

/-- Result dict of `calculate_loss_ratio`:
`{'success': True, 'premium': _, 'claims': _, 'loss_ratio': _, 'num_policies': _}`
or `{'success': False, 'error': _}`. -/
inductive CalcResult where
  | ok (premium claims loss_ratio : ℚ) (num_policies : ℕ)
  | err (error : String)
deriving Repr, DecidableEq

/-- `required_columns = ['Premium', 'Claims']` -/
def required_columns : List String := ["Premium", "Claims"]

/-- `LOSS_RATIO_THRESHOLD = 75.0` -/
def LOSS_RATIO_THRESHOLD : ℚ := 75

/-- `calculate_loss_ratio`, src/app.py lines 32-85, applied to the outcome of
the loading step (lines 41-52). -/
def calculate_loss_ratio (o : LoadOutcome) : CalcResult :=
  match o with
  | .ok df =>
    let missing_columns := required_columns.filter (fun col => ¬ col ∈ df.columns)
    if missing_columns ≠ [] then
      .err ("Missing required columns: " ++ String.intercalate ", " missing_columns ++
        ". File must have \"Premium\" and \"Claims\" columns.")
    else
      let total_premium := (df.get "Premium").sum
      let total_claims := (df.get "Claims").sum
      let loss_ratio := if total_premium > 0 then (total_claims / total_premium) * 100 else 0
      .ok total_premium total_claims loss_ratio df.nrows
  | .fileNotFound => .err "Excel file not found"
  | .keyError e => .err ("Missing column in Excel: " ++ e)
  | .requestException e => .err ("Failed to download file: " ++ e)
  | .otherError e => .err ("Error reading file: " ++ e)

/-- Decimal digit character for `d % 10`. -/
def digitChar (d : ℕ) : Char :=
  let m := d % 10
  if m = 0 then '0' else if m = 1 then '1' else if m = 2 then '2' else if m = 3 then '3'
  else if m = 4 then '4' else if m = 5 then '5' else if m = 6 then '6' else if m = 7 then '7'
  else if m = 8 then '8' else '9'

/-- Fuel-driven decimal digit expansion (most significant first). -/
def natDigitsGo : ℕ → ℕ → List Char
  | 0, _ => []
  | fuel + 1, n => if n < 10 then [digitChar n] else natDigitsGo fuel (n / 10) ++ [digitChar n]

/-- Decimal digits of a natural number, most significant first. -/
def natDigits (n : ℕ) : List Char := natDigitsGo (n + 1) n

/-- Insert a comma after every third character of the reversed digit list
(thousands grouping, as in Python's `,` format flag). -/
def groupRev : List Char → ℕ → List Char
  | [], _ => []
  | [c], _ => [c]
  | c :: cs, k => if k = 2 then c :: ',' :: groupRev cs 0 else c :: groupRev cs (k + 1)

/-- Thousands-grouped decimal digits of a natural number. -/
def commaDigits (n : ℕ) : List Char := ((groupRev (natDigits n).reverse 0)).reverse

/-- Round half to even, the rounding used by Python's fixed-point float
formatting. -/
def roundHalfEven (q : ℚ) : ℤ :=
  let f := ⌊q⌋
  let r := q - f
  if r < 1/2 then f else if 1/2 < r then f + 1 else if f % 2 = 0 then f else f + 1

/-- Python `f"{x:,.0f}"`: round to an integer, thousands separators, sign
taken from the value itself. -/
def fmtComma0f (q : ℚ) : String :=
  (if q < 0 then "-" else "") ++ ⟨commaDigits (roundHalfEven q).natAbs⟩

/-- Python `f"{x:.1f}"`: one decimal place, round half to even. -/
def fmt1f (q : ℚ) : String :=
  let n := (roundHalfEven (q * 10)).natAbs
  (if q < 0 then "-" else "") ++ ⟨natDigits (n / 10)⟩ ++ "." ++ ⟨[digitChar n]⟩

/-- Decimal rendering of a natural number (Python `f"{n}"`). -/
def fmtNat (n : ℕ) : String := ⟨natDigits n⟩

/-- A Slack-formatted response body `{'response_type': _, 'text': _}`. -/
structure SlackMsg where
  response_type : String
  text : String
deriving Repr, DecidableEq

/-- The warning line appended by `format_slack_response` when the loss ratio
exceeds the (default) threshold. -/
def warningLine : String := "⚠️ *Warning:* Loss ratio exceeds 75.0% threshold!"

/-- `format_slack_response`, src/app.py lines 170-212.  `aiConfigured` models
`DEEPSEEK_API_KEY != 'YOUR_DEEPSEEK_API_KEY_HERE'` and `insight` the outcome
of the external `generate_ai_insights` call. -/
def format_slack_response (aiConfigured : Bool) (insight : Option String)
    (result : CalcResult) (file_name : Option String) (include_ai : Bool) : SlackMsg :=
  match result with
  | .err e =>
    let file_info := match file_name with | some nm => " (" ++ nm ++ ")" | none => ""
    { response_type := "in_channel", text := "❌ *Error" ++ file_info ++ ":* " ++ e }
  | .ok premium claims loss_ratio num_policies =>
    let warning := if loss_ratio > LOSS_RATIO_THRESHOLD then "\n" ++ warningLine else ""
    let premium_formatted := "$" ++ fmtComma0f premium
    let claims_formatted := "$" ++ fmtComma0f claims
    let file_header := match file_name with
      | some nm => "📄 *Analysis of: " ++ nm ++ "*\n\n"
      | none => ""
    let message := file_header ++ "📊 *Actuarial Loss Ratio Analysis*\n\n*Premium:* " ++
      premium_formatted ++ "\n*Claims:* " ++ claims_formatted ++ "\n*Loss Ratio:* " ++
      fmt1f loss_ratio ++ "%\n*Policies Analyzed:* " ++ fmtNat num_policies ++ warning ++ "\n"
    let message := if include_ai ∧ aiConfigured then
        match insight with
        | some ai_insight => message ++ "\n🤖 *AI Insights:*\n_" ++ ai_insight ++ "_"
        | none => message
      else message
    { response_type := "in_channel", text := message }

/-- The process-global session state: `LAST_UPLOADED_FILE`,
`LAST_UPLOADED_FILE_NAME`, `LAST_ANALYSIS_RESULT` (src/app.py lines 22-24). -/
structure SessionState where
  last_uploaded_file : Option String
  last_uploaded_file_name : Option String
  last_analysis_result : Option CalcResult
deriving Repr, DecidableEq

/-- The outside world as the handlers see it: what loading a given source
yields (`none` = the default `EXCEL_FILE`), whether the DeepSeek key is
configured, and what `generate_ai_insights` returns for a result. -/
structure Env where
  load : Option String → LoadOutcome
  aiConfigured : Bool
  insight : CalcResult → Option String

/-- Python truthiness of a possibly-absent string (`None` and `''` falsy). -/
def strTruthy : Option String → Bool
  | none => false
  | some s => !s.isEmpty

/-- Truthiness of `LAST_ANALYSIS_RESULT and LAST_ANALYSIS_RESULT.get('success')`. -/
def resultSuccess : Option CalcResult → Bool
  | some (.ok _ _ _ _) => true
  | _ => false

/-- Python `str.endswith`, over the character sequences. -/
def pyEndsWith (s suffix : String) : Bool :=
  suffix.data.isSuffixOf s.data

/-- One entry of `event['files']`. -/
structure FileInfo where
  url_private : Option String
  name : Option String
deriving Repr, DecidableEq

/-- The `event` object of a Slack events payload; `files` is `some` exactly
when the key `'files'` is present. -/
structure EventObj where
  type : Option String := none
  files : Option (List FileInfo) := none
  channel : Option String := none
deriving Repr, DecidableEq

/-- A parsed `POST /slack/events` request: JSON body fields plus the
`X-Slack-Retry-Num` header. -/
structure EventPayload where
  challenge : Option String := none
  retry_num_header : Option String := none
  event : Option EventObj := none
deriving Repr, DecidableEq

/-- HTTP response body of the events endpoint. -/
inductive EventsResp where
  | challengeEcho (c : String)
  | statusOk
deriving Repr, DecidableEq

/-- A message posted to a channel via `chat_postMessage`. -/
structure SentMsg where
  channel : String
  text : String
deriving Repr, DecidableEq

/-- An uncaught Python exception escaping the handler. -/
inductive PyFault where
  | keyError
  | indexError
deriving Repr, DecidableEq

/-- Outcome of one events-endpoint invocation: the session state after the
handler, the HTTP response and the channel messages attempted — or an
uncaught fault, with the state as mutated up to the raise. -/
inductive EventsOutcome where
  | ok (st : SessionState) (resp : EventsResp) (sent : List SentMsg)
  | fault (f : PyFault) (st : SessionState) (sent : List SentMsg)
deriving Repr, DecidableEq

/-- `slack_events`, src/app.py lines 232-291. -/
def slack_events (env : Env) (st : SessionState) (p : EventPayload) : EventsOutcome :=
  match p.challenge with
  | some c => .ok st (.challengeEcho c) []
  | none =>
    if strTruthy p.retry_num_header then .ok st .statusOk []
    else
      let event := p.event.getD {}
      match event.files, event.type == some "message" with
      | some files, true =>
        match files with
        | [] => .fault .indexError st []
        | file_info :: _ =>
          let file_name := file_info.name.getD "unknown"
          if pyEndsWith file_name ".xlsx" || pyEndsWith file_name ".xls" then
            let st1 := { st with last_uploaded_file := file_info.url_private,
                                 last_uploaded_file_name := some file_name }
            let result := calculate_loss_ratio (env.load file_info.url_private)
            let st2 := { st1 with last_analysis_result := some result }
            match event.channel with
            | none => .fault .keyError st2 []
            | some ch =>
              .ok st2 .statusOk
                [⟨ch, (format_slack_response env.aiConfigured (env.insight result) result
                  (some file_name) true).text⟩]
          else
            let error_result := CalcResult.err
              ("Please upload an Excel file (.xlsx or .xls). You uploaded: " ++ file_name)
            match event.channel with
            | none => .fault .keyError st []
            | some ch =>
              .ok st .statusOk
                [⟨ch, (format_slack_response env.aiConfigured (env.insight error_result)
                  error_result none false).text⟩]
      | _, _ => .ok st .statusOk []

/-- `lossratio_command`, src/app.py lines 293-318. -/
def lossratio_command (env : Env) (st : SessionState) : SessionState × SlackMsg :=
  let resultName :=
    if strTruthy st.last_uploaded_file then
      (calculate_loss_ratio (env.load st.last_uploaded_file), st.last_uploaded_file_name)
    else
      (calculate_loss_ratio (env.load none), none)
  let result := resultName.1
  let st2 := { st with last_analysis_result := some result }
  (st2, format_slack_response env.aiConfigured (env.insight result) result resultName.2 true)

/-- Python `str.isspace` (whitespace stripped by `str.strip()`). -/
def pyIsSpace (c : Char) : Bool :=
  c == ' ' || c == '\t' || c == '\n' || c == '\r' || c.toNat == 11 || c.toNat == 12 ||
  c.toNat == 0x1c || c.toNat == 0x1d || c.toNat == 0x1e || c.toNat == 0x1f ||
  c.toNat == 0x85 || c.toNat == 0xa0 || c.toNat == 0x1680 ||
  (0x2000 ≤ c.toNat && c.toNat ≤ 0x200a) || c.toNat == 0x2028 || c.toNat == 0x2029 ||
  c.toNat == 0x202f || c.toNat == 0x205f || c.toNat == 0x3000

/-- Python `str.strip()`: drop leading and trailing whitespace. -/
def pyStrip (s : String) : String :=
  ⟨((s.data.dropWhile pyIsSpace).reverse.dropWhile pyIsSpace).reverse⟩

/-- Form fields of a `POST /explain` request. -/
structure ExplainForm where
  text : Option String := none
  channel_id : Option String := none
  user_id : Option String := none
deriving Repr, DecidableEq

/-- The detached unit of work started by `explain_command`: generate an
answer to `question` in the context of `context_result` and post it to
`channel_id`. -/
structure BackgroundJob where
  channel_id : Option String
  question : String
  context_result : Option CalcResult
deriving Repr, DecidableEq

/-- `explain_command`, src/app.py lines 320-376: the immediate HTTP response
plus the background thread started, if any. -/
def explain_command (st : SessionState) (form : ExplainForm) : SlackMsg × Option BackgroundJob :=
  let question := pyStrip (form.text.getD "")
  let channel_id := form.channel_id
  if question.isEmpty then
    ({ response_type := "ephemeral",
       text := "❓ Please ask a question! Example: `/explain why is the loss ratio high?`" },
     none)
  else if !resultSuccess st.last_analysis_result then
    ({ response_type := "ephemeral",
       text := "⚠️ No analysis data available. Please upload a file or run `/lossratio` first." },
     none)
  else
    ({ response_type := "in_channel",
       text := "❓ *Question:* " ++ question ++ "\n\n🤖 _Thinking..._" },
     some ⟨channel_id, question, st.last_analysis_result⟩)

/-! ## Concrete tables used by witnesses -/

/-- Premium=[1000,2000], Claims=[500,1900]: the worked example of the spec. -/
def dfHigh : DataFrame := ⟨[("Premium", [1000, 2000]), ("Claims", [500, 1900])], 2⟩

/-- Premium=[1000], Claims=[100]: the low-ratio example of the spec. -/
def dfLow : DataFrame := ⟨[("Premium", [1000]), ("Claims", [100])], 1⟩

/-- A table with a negative Premium cell. -/
def dfNeg : DataFrame := ⟨[("Premium", [-5]), ("Claims", [3])], 1⟩

/-- A table lacking the Claims column. -/
def dfNoClaims : DataFrame := ⟨[("Premium", [10]), ("Losses", [4])], 1⟩

/-! ## Evaluation lemmas for the Ratio Calculator -/

/-- Both required columns present means `missing_columns` is empty. -/
lemma missing_columns_nil (df : DataFrame)
    (hp : "Premium" ∈ df.columns) (hc : "Claims" ∈ df.columns) :
    required_columns.filter (fun col => ¬ col ∈ df.columns) = [] := by
  rw [List.filter_eq_nil_iff]
  intro a ha
  fin_cases ha <;> simp [hp, hc]

/-- From `missing_columns = []`, both required columns are present. -/
lemma cols_of_missing_nil (df : DataFrame)
    (hm : required_columns.filter (fun col => ¬ col ∈ df.columns) = []) :
    "Premium" ∈ df.columns ∧ "Claims" ∈ df.columns := by
  rw [List.filter_eq_nil_iff] at hm
  constructor
  · simpa using hm "Premium" (by simp [required_columns])
  · simpa using hm "Claims" (by simp [required_columns])

/-- Success branch of `calculate_loss_ratio`. -/
lemma calculate_ok_eq (df : DataFrame)
    (hp : "Premium" ∈ df.columns) (hc : "Claims" ∈ df.columns) :
    calculate_loss_ratio (.ok df) =
      .ok ((df.get "Premium").sum) ((df.get "Claims").sum)
        (if (df.get "Premium").sum > 0
          then ((df.get "Claims").sum / (df.get "Premium").sum) * 100 else 0)
        df.nrows := by
  unfold calculate_loss_ratio
  simp only [missing_columns_nil df hp hc]
  simp

/-- Missing-column branch of `calculate_loss_ratio`. -/
lemma calculate_err_eq (df : DataFrame)
    (h : required_columns.filter (fun col => ¬ col ∈ df.columns) ≠ []) :
    calculate_loss_ratio (.ok df) =
      .err ("Missing required columns: " ++
        String.intercalate ", " (required_columns.filter (fun col => ¬ col ∈ df.columns)) ++
        ". File must have \"Premium\" and \"Claims\" columns.") := by
  unfold calculate_loss_ratio
  simp only [ne_eq, ite_not]
  rw [if_neg h]

/-- The calculator on the spec's high-ratio example. -/
lemma calculate_dfHigh : calculate_loss_ratio (.ok dfHigh) = .ok 3000 2400 80 2 := by
  rw [calculate_ok_eq dfHigh (by decide) (by decide)]
  simp only [show dfHigh.get "Premium" = [1000, 2000] from rfl,
    show dfHigh.get "Claims" = [500, 1900] from rfl, show dfHigh.nrows = 2 from rfl]
  norm_num [List.sum_cons, List.sum_nil]

/-- The calculator on the spec's low-ratio example. -/
lemma calculate_dfLow : calculate_loss_ratio (.ok dfLow) = .ok 1000 100 10 1 := by
  rw [calculate_ok_eq dfLow (by decide) (by decide)]
  simp only [show dfLow.get "Premium" = [1000] from rfl,
    show dfLow.get "Claims" = [100] from rfl, show dfLow.nrows = 1 from rfl]
  norm_num [List.sum_cons, List.sum_nil]

/-- The calculator on the negative-premium example. -/
lemma calculate_dfNeg : calculate_loss_ratio (.ok dfNeg) = .ok (-5) 3 0 1 := by
  rw [calculate_ok_eq dfNeg (by decide) (by decide)]
  simp only [show dfNeg.get "Premium" = [-5] from rfl,
    show dfNeg.get "Claims" = [3] from rfl, show dfNeg.nrows = 1 from rfl]
  norm_num [List.sum_cons, List.sum_nil]

/-! ## Claims C1-C4: the Ratio Calculator -/

/-- C1: for every table with both columns `Premium` and `Claims`,
`calculate_loss_ratio` succeeds with ratio `sum(Claims)/sum(Premium)*100`
when `sum(Premium) > 0` and ratio `0` when `sum(Premium) <= 0`, reporting
the record count. -/
theorem C1_ratio_formula (df : DataFrame)
    (hp : "Premium" ∈ df.columns) (hc : "Claims" ∈ df.columns) :
    calculate_loss_ratio (.ok df) =
      .ok ((df.get "Premium").sum) ((df.get "Claims").sum)
        (if (df.get "Premium").sum > 0
          then ((df.get "Claims").sum / (df.get "Premium").sum) * 100 else 0)
        df.nrows :=
  calculate_ok_eq df hp hc

/-- Witness for C1 at the spec's worked example (ratio 80.0). -/
theorem C1_ratio_formula_witness :
    ("Premium" ∈ dfHigh.columns ∧ "Claims" ∈ dfHigh.columns) ∧
    calculate_loss_ratio (.ok dfHigh) = .ok 3000 2400 80 2 := by
  refine ⟨by decide, ?_⟩
  rw [C1_ratio_formula dfHigh (by decide) (by decide)]
  simp only [show dfHigh.get "Premium" = [1000, 2000] from rfl,
    show dfHigh.get "Claims" = [500, 1900] from rfl, show dfHigh.nrows = 2 from rfl]
  norm_num [List.sum_cons, List.sum_nil]

/-- C2 counterexample: a table with a negative Premium cell yields a success
result whose premium is negative, so "success implies premium >= 0" fails
on the code. -/
theorem C2_counterexample :
    calculate_loss_ratio (.ok dfNeg) = .ok (-5) 3 0 1 ∧ (-5 : ℚ) < 0 :=
  ⟨calculate_dfNeg, by norm_num⟩

/-- C2 (amended): a success result always has `record_count >= 0`, and has
`premium >= 0` and `claims >= 0` whenever every cell of the Premium and
Claims columns is non-negative. -/
theorem C2_success_invariant (df : DataFrame) (p c r : ℚ) (n : ℕ)
    (h : calculate_loss_ratio (.ok df) = .ok p c r n)
    (hpnn : ∀ x ∈ df.get "Premium", 0 ≤ x)
    (hcnn : ∀ x ∈ df.get "Claims", 0 ≤ x) :
    0 ≤ p ∧ 0 ≤ c ∧ 0 ≤ n := by
  by_cases hm : required_columns.filter (fun col => ¬ col ∈ df.columns) = []
  · obtain ⟨hp, hc⟩ := cols_of_missing_nil df hm
    rw [calculate_ok_eq df hp hc] at h
    simp only [CalcResult.ok.injEq] at h
    obtain ⟨hp2, hc2, -, -⟩ := h
    exact ⟨hp2 ▸ List.sum_nonneg hpnn, hc2 ▸ List.sum_nonneg hcnn, Nat.zero_le n⟩
  · rw [calculate_err_eq df hm] at h
    cases h

/-- Witness for C2 (amended) at the spec's worked example. -/
theorem C2_success_invariant_witness :
    0 ≤ (3000 : ℚ) ∧ 0 ≤ (2400 : ℚ) ∧ 0 ≤ 2 :=
  C2_success_invariant dfHigh 3000 2400 80 2 calculate_dfHigh
    (by intro x hx; fin_cases hx <;> norm_num)
    (by intro x hx; fin_cases hx <;> norm_num)

/-- C3: a table missing a required column yields a failure result (never a
numeric success) whose error text lists, via `missing_columns`, exactly the
required columns that are absent. -/
theorem C3_missing_columns (df : DataFrame)
    (h : "Premium" ∉ df.columns ∨ "Claims" ∉ df.columns) :
    calculate_loss_ratio (.ok df) =
      .err ("Missing required columns: " ++
        String.intercalate ", " (required_columns.filter (fun col => ¬ col ∈ df.columns)) ++
        ". File must have \"Premium\" and \"Claims\" columns.") ∧
    ∀ col, col ∈ required_columns.filter (fun col => ¬ col ∈ df.columns) ↔
      (col ∈ required_columns ∧ col ∉ df.columns) := by
  have hne : required_columns.filter (fun col => ¬ col ∈ df.columns) ≠ [] := by
    rcases h with h | h
    · have hm : "Premium" ∈ required_columns.filter (fun col => ¬ col ∈ df.columns) :=
        List.mem_filter.mpr ⟨by simp [required_columns], by simpa using h⟩
      exact List.ne_nil_of_mem hm
    · have hm : "Claims" ∈ required_columns.filter (fun col => ¬ col ∈ df.columns) :=
        List.mem_filter.mpr ⟨by simp [required_columns], by simpa using h⟩
      exact List.ne_nil_of_mem hm
  refine ⟨calculate_err_eq df hne, ?_⟩
  intro col
  simp [List.mem_filter]

/-- Witness for C3 at a table lacking the Claims column. -/
theorem C3_missing_columns_witness :
    ("Claims" ∉ dfNoClaims.columns) ∧
    calculate_loss_ratio (.ok dfNoClaims) =
      .err "Missing required columns: Claims. File must have \"Premium\" and \"Claims\" columns." := by
  refine ⟨by decide, ?_⟩
  rw [(C3_missing_columns dfNoClaims (Or.inr (by decide))).1]
  rfl

/-- C4: on every loading outcome — a parsed table, file-not-found, a missing
key, a download failure, or any other read error — `calculate_loss_ratio`
returns a plain result value: either a numeric success or
`{success: false, error: <nonempty string>}`, never an escaped fault. -/
theorem C4_no_fault_escapes (o : LoadOutcome) :
    (∃ p c r n, calculate_loss_ratio o = .ok p c r n) ∨
    (∃ e, calculate_loss_ratio o = .err e ∧ e ≠ "") := by
  have nonempty_append : ∀ (s t : String), s.data ≠ [] → s ++ t ≠ "" := by
    intro s t hs he
    have hd : (s ++ t).data = [] := by rw [he]
    rw [String.data_append] at hd
    exact hs (List.append_eq_nil.mp hd).1
  have nonempty_append3 : ∀ (s t u : String), s.data ≠ [] → s ++ t ++ u ≠ "" := by
    intro s t u hs
    apply nonempty_append
    rw [String.data_append]
    intro hh
    exact hs (List.append_eq_nil.mp hh).1
  cases o with
  | ok df =>
    by_cases hm : required_columns.filter (fun col => ¬ col ∈ df.columns) = []
    · obtain ⟨hp, hc⟩ := cols_of_missing_nil df hm
      exact Or.inl ⟨_, _, _, _, calculate_ok_eq df hp hc⟩
    · exact Or.inr ⟨_, calculate_err_eq df hm,
        nonempty_append3 "Missing required columns: " _ _ (by decide)⟩
  | fileNotFound => exact Or.inr ⟨_, rfl, by decide⟩
  | keyError e => exact Or.inr ⟨_, rfl, nonempty_append _ _ (by decide)⟩
  | requestException e => exact Or.inr ⟨_, rfl, nonempty_append _ _ (by decide)⟩
  | otherError e => exact Or.inr ⟨_, rfl, nonempty_append _ _ (by decide)⟩

/-! ## Claims C6-C10: the webhook handlers -/

/-- A concrete environment for witnesses: every load fails with
file-not-found, DeepSeek unconfigured. -/
def envDefault : Env := ⟨fun _ => .fileNotFound, false, fun _ => none⟩

/-- The empty session state at process start. -/
def stEmpty : SessionState := ⟨none, none, none⟩

/-- A session state holding an uploaded file. -/
def stWithFile : SessionState := ⟨some "http://files/f", some "f.xlsx", none⟩

/-- C6: a payload carrying a `challenge` field makes the events endpoint echo
the challenge back and do nothing else: no message is sent and the session
state is returned untouched. -/
theorem C6_challenge_echo (env : Env) (st : SessionState) (p : EventPayload) (c : String)
    (h : p.challenge = some c) :
    slack_events env st p = .ok st (.challengeEcho c) [] := by
  unfold slack_events
  rw [h]

/-- Witness for C6 at the spec's handshake example. -/
theorem C6_challenge_echo_witness :
    (EventPayload.challenge ⟨some "abc123", none, none⟩ = some "abc123") ∧
    slack_events envDefault stEmpty ⟨some "abc123", none, none⟩ =
      .ok stEmpty (.challengeEcho "abc123") [] :=
  ⟨rfl, C6_challenge_echo envDefault stEmpty ⟨some "abc123", none, none⟩ "abc123" rfl⟩

/-- C7: a file-share event whose (first) file name ends in neither `.xlsx`
nor `.xls` makes the events endpoint send the error-formatted message to the
channel and leave every session-state field unchanged. -/
theorem C7_non_excel_upload (env : Env) (st : SessionState) (retry : Option String)
    (hretry : strTruthy retry = false) (fi : FileInfo) (rest : List FileInfo) (ch : String)
    (hext : (pyEndsWith (fi.name.getD "unknown") ".xlsx" ||
             pyEndsWith (fi.name.getD "unknown") ".xls") = false) :
    slack_events env st ⟨none, retry, some ⟨some "message", some (fi :: rest), some ch⟩⟩ =
      .ok st .statusOk
        [⟨ch, "❌ *Error:* Please upload an Excel file (.xlsx or .xls). You uploaded: " ++
          fi.name.getD "unknown"⟩] := by
  unfold slack_events
  rw [Bool.or_eq_false_iff] at hext
  simp only [hretry, Option.getD_some, show (some "message" == some "message" : Bool) = true
    from rfl, hext.1, hext.2, Bool.or_self, Bool.false_eq_true, if_false]
  rfl

/-- Witness for C7 at the spec's `.csv` example. -/
theorem C7_non_excel_upload_witness :
    (strTruthy none = false ∧
     ((pyEndsWith ((FileInfo.mk (some "http://files/d") (some "data.csv")).name.getD "unknown") ".xlsx" ||
       pyEndsWith ((FileInfo.mk (some "http://files/d") (some "data.csv")).name.getD "unknown") ".xls") = false)) ∧
    slack_events envDefault stWithFile
      ⟨none, none, some ⟨some "message", some [⟨some "http://files/d", some "data.csv"⟩], some "C042"⟩⟩ =
      .ok stWithFile .statusOk
        [⟨"C042", "❌ *Error:* Please upload an Excel file (.xlsx or .xls). You uploaded: " ++
          "data.csv"⟩] :=
  ⟨⟨rfl, by decide⟩,
   C7_non_excel_upload envDefault stWithFile none rfl ⟨some "http://files/d", some "data.csv"⟩ []
     "C042" (by decide)⟩

/-- C8: an Explain request whose submitted text is empty (or absent) gets the
immediate prompt-for-question reply and starts no background thread. -/
theorem C8_explain_empty_text (st : SessionState) (form : ExplainForm)
    (h : form.text.getD "" = "") :
    explain_command st form =
      ({ response_type := "ephemeral",
         text := "❓ Please ask a question! Example: `/explain why is the loss ratio high?`" },
       none) := by
  unfold explain_command
  rw [h]
  rfl

/-- Witness for C8 at an empty-text form. -/
theorem C8_explain_empty_text_witness :
    ((ExplainForm.text ⟨some "", some "C042", some "U1"⟩).getD "" = "") ∧
    explain_command stEmpty ⟨some "", some "C042", some "U1"⟩ =
      ({ response_type := "ephemeral",
         text := "❓ Please ask a question! Example: `/explain why is the loss ratio high?`" },
       none) :=
  ⟨rfl, C8_explain_empty_text stEmpty ⟨some "", some "C042", some "U1"⟩ rfl⟩

/-- C9: the Analysis command re-runs the calculator against the stored file
when the session holds one (a non-empty locator), and against the default
source otherwise; either way the stored analysis result is overwritten with
the new result, the other two state fields staying as they were. -/
theorem C9_lossratio_source (env : Env) (st : SessionState) :
    (strTruthy st.last_uploaded_file = true →
      lossratio_command env st =
        ({ st with
            last_analysis_result := some (calculate_loss_ratio (env.load st.last_uploaded_file)) },
         format_slack_response env.aiConfigured
           (env.insight (calculate_loss_ratio (env.load st.last_uploaded_file)))
           (calculate_loss_ratio (env.load st.last_uploaded_file))
           st.last_uploaded_file_name true)) ∧
    (strTruthy st.last_uploaded_file = false →
      lossratio_command env st =
        ({ st with
            last_analysis_result := some (calculate_loss_ratio (env.load none)) },
         format_slack_response env.aiConfigured
           (env.insight (calculate_loss_ratio (env.load none)))
           (calculate_loss_ratio (env.load none)) none true)) := by
  constructor <;> intro hb <;> unfold lossratio_command <;> simp [hb]

/-- Witness for C9 with a stored file (every load failing, so the stored
result is overwritten with the file-not-found error). -/
theorem C9_lossratio_source_witness :
    lossratio_command envDefault stWithFile =
      ({ stWithFile with
          last_analysis_result := some (.err "Excel file not found") },
       ⟨"in_channel", "❌ *Error (f.xlsx):* Excel file not found"⟩) := by
  rw [(C9_lossratio_source envDefault stWithFile).1 rfl]
  rfl

/-- C10: an Explain request whose text is whitespace-only is handled exactly
like empty text: the stripped question is empty, the prompt reply is
returned, and no background thread is started. -/
theorem C10_explain_whitespace_text (st : SessionState) (form : ExplainForm) (txt : String)
    (htxt : form.text = some txt) (hws : ∀ c ∈ txt.data, pyIsSpace c) :
    explain_command st form =
      ({ response_type := "ephemeral",
         text := "❓ Please ask a question! Example: `/explain why is the loss ratio high?`" },
       none) := by
  unfold explain_command
  rw [htxt]
  have hstrip : pyStrip txt = "" := by
    unfold pyStrip
    have hd : txt.data.dropWhile pyIsSpace = [] := by
      rw [List.dropWhile_eq_nil_iff]
      exact fun c hc => hws c hc
    rw [hd]
    rfl
  simp only [Option.getD_some, hstrip]
  rfl

/-- Witness for C10 at a text of blanks, a tab and a newline. -/
theorem C10_explain_whitespace_text_witness :
    (ExplainForm.text ⟨some "  \t\n ", some "C042", none⟩ = some "  \t\n " ∧
       ∀ c ∈ ("  \t\n " : String).data, pyIsSpace c) ∧
    explain_command stEmpty ⟨some "  \t\n ", some "C042", none⟩ =
      ({ response_type := "ephemeral",
         text := "❓ Please ask a question! Example: `/explain why is the loss ratio high?`" },
       none) :=
  ⟨⟨rfl, by decide⟩,
   C10_explain_whitespace_text stEmpty ⟨some "  \t\n ", some "C042", none⟩ "  \t\n " rfl
     (by decide)⟩

/-! ## Claim C5: the threshold warning line -/

lemma digitChar_toNat_lt (d : ℕ) : (digitChar d).toNat < 128 := by
  unfold digitChar
  simp only []
  split_ifs <;> decide

lemma mem_natDigitsGo_toNat_lt :
    ∀ (fuel n : ℕ) (c : Char), c ∈ natDigitsGo fuel n → c.toNat < 128 := by
  intro fuel
  induction fuel with
  | zero => intro n c hc; simp [natDigitsGo] at hc
  | succ f ih =>
    intro n c hc
    unfold natDigitsGo at hc
    split at hc
    · rw [List.mem_singleton] at hc
      exact hc ▸ digitChar_toNat_lt n
    · rcases List.mem_append.mp hc with h | h
      · exact ih _ _ h
      · rw [List.mem_singleton] at h
        exact h ▸ digitChar_toNat_lt n

lemma mem_natDigits_toNat_lt (n : ℕ) (c : Char) (hc : c ∈ natDigits n) : c.toNat < 128 :=
  mem_natDigitsGo_toNat_lt _ _ _ hc

lemma mem_groupRev : ∀ (l : List Char) (k : ℕ) (c : Char), c ∈ groupRev l k → c ∈ l ∨ c = ',' := by
  intro l
  induction l with
  | nil => intro k c hc; simp [groupRev] at hc
  | cons a as ih =>
    intro k c hc
    cases as with
    | nil =>
      unfold groupRev at hc
      rw [List.mem_singleton] at hc
      exact Or.inl (hc ▸ List.mem_singleton_self a)
    | cons b bs =>
      unfold groupRev at hc
      split at hc
      · rcases List.mem_cons.mp hc with h | h
        · exact Or.inl (h ▸ List.mem_cons_self a _)
        · rcases List.mem_cons.mp h with h2 | h2
          · exact Or.inr h2
          · rcases ih 0 c h2 with h3 | h3
            · exact Or.inl (List.mem_cons_of_mem a h3)
            · exact Or.inr h3
      · rcases List.mem_cons.mp hc with h | h
        · exact Or.inl (h ▸ List.mem_cons_self a _)
        · rcases ih (k + 1) c h with h3 | h3
          · exact Or.inl (List.mem_cons_of_mem a h3)
          · exact Or.inr h3

lemma mem_commaDigits_toNat_lt (n : ℕ) (c : Char) (hc : c ∈ commaDigits n) : c.toNat < 128 := by
  unfold commaDigits at hc
  rw [List.mem_reverse] at hc
  rcases mem_groupRev _ _ _ hc with h | h
  · exact mem_natDigits_toNat_lt n c (List.mem_reverse.mp h)
  · exact h ▸ (by decide)

lemma mem_fmtComma0f_toNat_lt (q : ℚ) (c : Char) (hc : c ∈ (fmtComma0f q).data) :
    c.toNat < 128 := by
  unfold fmtComma0f at hc
  rw [String.data_append] at hc
  rcases List.mem_append.mp hc with h | h
  · by_cases hq : q < 0
    · rw [if_pos hq] at h
      have : c = '-' := by simpa using h
      exact this ▸ (by decide)
    · rw [if_neg hq] at h
      simp at h
  · exact mem_commaDigits_toNat_lt _ _ h

lemma mem_fmt1f_toNat_lt (q : ℚ) (c : Char) (hc : c ∈ (fmt1f q).data) : c.toNat < 128 := by
  unfold fmt1f at hc
  rw [String.data_append, String.data_append, String.data_append] at hc
  rcases List.mem_append.mp hc with h | h
  · rcases List.mem_append.mp h with h2 | h2
    · rcases List.mem_append.mp h2 with h3 | h3
      · by_cases hq : q < 0
        · rw [if_pos hq] at h3
          have : c = '-' := by simpa using h3
          exact this ▸ (by decide)
        · rw [if_neg hq] at h3
          simp at h3
      · exact mem_natDigits_toNat_lt _ _ h3
    · have : c = '.' := by simpa using h2
      exact this ▸ (by decide)
  · have : c = digitChar ((roundHalfEven (q * 10)).natAbs) := by simpa using h
    exact this ▸ digitChar_toNat_lt _

lemma mem_fmtNat_toNat_lt (n : ℕ) (c : Char) (hc : c ∈ (fmtNat n).data) : c.toNat < 128 :=
  mem_natDigits_toNat_lt n c hc

lemma isInfix_extend {α} {w l : List α} (h : w <:+: l) (a b : List α) : w <:+: a ++ l ++ b := by
  obtain ⟨s, t, rfl⟩ := h
  exact ⟨a ++ s, t ++ b, by simp⟩

/-- C5: for a successful result rendered with no file header and DeepSeek
unconfigured, the formatted message contains the threshold-warning line
exactly when the loss ratio strictly exceeds the 75.0 threshold. -/
theorem C5_warning_iff (p c r : ℚ) (n : ℕ) :
    warningLine.data <:+: (format_slack_response false none (.ok p c r n) none true).text.data ↔
      r > LOSS_RATIO_THRESHOLD := by
  have htext : (format_slack_response false none (.ok p c r n) none true).text =
      "" ++ "📊 *Actuarial Loss Ratio Analysis*\n\n*Premium:* " ++ ("$" ++ fmtComma0f p) ++
        "\n*Claims:* " ++ ("$" ++ fmtComma0f c) ++ "\n*Loss Ratio:* " ++ fmt1f r ++
        "%\n*Policies Analyzed:* " ++ fmtNat n ++
        (if r > LOSS_RATIO_THRESHOLD then "\n" ++ warningLine else "") ++ "\n" := rfl
  rw [htext]
  constructor
  · intro h
    by_contra hr
    rw [if_neg hr] at h
    have hsub := h.subset (show ('⚠' : Char) ∈ warningLine.data from by decide)
    have h1 : ('⚠' : Char) ∉ (fmtComma0f p).data :=
      fun hm => absurd (mem_fmtComma0f_toNat_lt p _ hm) (by decide)
    have h2 : ('⚠' : Char) ∉ (fmtComma0f c).data :=
      fun hm => absurd (mem_fmtComma0f_toNat_lt c _ hm) (by decide)
    have h3 : ('⚠' : Char) ∉ (fmt1f r).data :=
      fun hm => absurd (mem_fmt1f_toNat_lt r _ hm) (by decide)
    have h4 : ('⚠' : Char) ∉ (fmtNat n).data :=
      fun hm => absurd (mem_fmtNat_toNat_lt n _ hm) (by decide)
    simp only [String.data_append, List.mem_append, h1, h2, h3, h4, or_false, false_or] at hsub
    exact absurd hsub (by decide)
  · intro hr
    rw [if_pos hr]
    simp only [String.data_append]
    exact isInfix_extend ⟨"\n".data, [], by simp⟩ _ _

end ActuarySlackbot
